import Mathlib

/-!
Shallow embedding of the KS1 escrow backend (`src/server.js`, `src/unnamed/part_000`).

The document store (MongoDB via mongoose) is modelled as four lists of records.
JavaScript numbers are modelled as exact rationals (`ℚ`); `x.toFixed(2)` followed
by `parseFloat` becomes rounding to a multiple of 1/100 with ties away from zero
toward the larger integer, as the ECMAScript `toFixed` specification prescribes.
`findOneAndUpdate` / `findOneAndDelete` / `findByIdAndUpdate` update or delete the
first matching document and are no-ops (still answering success) when nothing
matches; they are modelled by `updateFirst` / `deleteFirst` on lists.
Persistence faults for the two `create` calls inside the create-transaction route
are modelled by explicit boolean fault flags; all other routes only fail on store
faults, which the claims under study do not exercise.
-/

namespace KS1

/-- A registered user (`UserSchema`): the Mongo `_id` (as a string), the unique
phone number, the bcrypt-hashed password and a creation timestamp. -/
structure User where
  id : String
  phone_number : String
  password : String
  created_at : Nat
deriving DecidableEq, Repr

/-- A transaction document (`TransactionSchema`).  `id` is the Mongo `_id`
(the key used by `findByIdAndUpdate`); `transaction_id` is the human-readable
`KS1-......` identifier. -/
structure Transaction where
  id : Nat
  transaction_id : String
  buyer_id : String
  buyer_phone : String
  seller_phone : String
  amount : ℚ
  fee : ℚ
  status : String
  description : String
  created_at : Nat
deriving DecidableEq, Repr

/-- A payment submission (`PaymentSchema`).  `transaction_id` is a soft foreign
key, not unique: several payments may reference one transaction. -/
structure Payment where
  id : Nat
  transaction_id : String
  momo_reference : String
  verified : Bool
  created_at : Nat
deriving DecidableEq, Repr

/-- A commission record (`CommissionSchema`), created alongside a transaction. -/
structure Commission where
  transaction_id : String
  amount : ℚ
  status : String
  destination_number : String
deriving DecidableEq, Repr

/-- The whole document store: the four mongoose collections. -/
structure Store where
  users : List User
  transactions : List Transaction
  payments : List Payment
  commissions : List Commission
deriving DecidableEq, Repr

/-- The empty database. -/
def emptyStore : Store := ⟨[], [], [], []⟩

/-- `findOneAndUpdate`: rewrite the first element satisfying `p` with `f`,
leave everything else alone; a no-op when nothing matches. -/
def updateFirst (p : α → Bool) (f : α → α) : List α → List α
  | [] => []
  | x :: xs => if p x then f x :: xs else x :: updateFirst p f xs

/-- `findOneAndDelete`: remove the first element satisfying `p`;
a no-op when nothing matches. -/
def deleteFirst (p : α → Bool) : List α → List α
  | [] => []
  | x :: xs => if p x then xs else x :: deleteFirst p xs

/-- JavaScript truthiness of an optional string request field:
absent and `""` are falsy. -/
def truthyStr : Option String → Bool
  | none => false
  | some s => s != ""

/-- JavaScript truthiness of an optional numeric request field:
absent and `0` are falsy (NaN does not arise in the rational model). -/
def truthyNum : Option ℚ → Bool
  | none => false
  | some q => q != 0

/-- `parseFloat(x.toFixed(2))` on an exact rational: round to a multiple of
1/100, ties to the larger integer numerator. -/
def toFixed2 (q : ℚ) : ℚ := ((⌊q * 100 + 1 / 2⌋ : ℤ) : ℚ) / 100

/-- The fee computation of the create-transaction route:
`parseFloat((amount * 0.01).toFixed(2))`. -/
def computeFee (amount : ℚ) : ℚ := toFixed2 (amount * (1 / 100))

/-- Outcome of `POST /api/register`. -/
inductive RegisterResult
  | missingFields
  | conflict
  | ok
deriving DecidableEq, Repr

/-- `POST /api/register`: reject missing fields (400), reject a duplicate
phone number (unique-index error 11000 → 400), otherwise store the user with
the hashed password.  `hashed` stands for `bcrypt.hash(password, 10)` and
`id` for the fresh Mongo `_id`. -/
def register (phone_number password hashed id : String) (created_at : Nat)
    (s : Store) : RegisterResult × Store :=
  if !(phone_number != "") || !(password != "") then (.missingFields, s)
  else if s.users.any (fun u => u.phone_number == phone_number) then (.conflict, s)
  else (.ok, { s with users := s.users ++ [⟨id, phone_number, hashed, created_at⟩] })

/-- Outcome of `POST /api/login`.  `adminBypass` is the hardcoded
`admin`/`admin123` branch; `ok` carries the matched user's id and phone;
`invalidCredentials` is the 401 response. -/
inductive LoginResult
  | adminBypass
  | ok (id : String) (phone_number : String)
  | invalidCredentials
deriving DecidableEq, Repr

/-- `POST /api/login`: the hardcoded admin check first, then `User.findOne`
by phone number, then `bcrypt.compare` (abstracted as the oracle `check`,
taking the submitted password and the stored hash). -/
def login (phone_number password : String) (check : String → String → Bool)
    (s : Store) : LoginResult :=
  if phone_number == "admin" && password == "admin123" then .adminBypass
  else
    match s.users.find? (fun u => u.phone_number == phone_number) with
    | none => .invalidCredentials
    | some u => if check password u.password then .ok u.id u.phone_number
                else .invalidCredentials

/-- The request body of `POST /api/transactions`; optional fields model
absent JSON keys. -/
structure CreateTxRequest where
  buyer_id : Option String
  seller_phone : Option String
  amount : Option ℚ
  description : String
deriving DecidableEq, Repr

/-- Outcome of `POST /api/transactions`: the 400 missing-fields response,
the success response carrying the created transaction, or the 500 response
after a store fault. -/
inductive CreateTxResult
  | validationError
  | created (t : Transaction)
  | storageError
deriving DecidableEq, Repr

/-- The buyer lookup of the create-transaction route:
`const buyer = await User.findById(buyer_id)` followed by
`buyer ? buyer.phone_number : 'Unknown'`. -/
def buyerPhoneLookup (buyer_id : String) (s : Store) : String :=
  match s.users.find? (fun u => u.id == buyer_id) with
  | some u => u.phone_number
  | none => "Unknown"

/-- The transaction document handed to `Transaction.create` by the
create-transaction route (status takes the schema default
`pending_payment`). -/
def builtTx (req : CreateTxRequest) (txID : String) (docId created_at : Nat)
    (s : Store) : Transaction :=
  { id := docId, transaction_id := txID, buyer_id := req.buyer_id.getD "",
    buyer_phone := buyerPhoneLookup (req.buyer_id.getD "") s,
    seller_phone := req.seller_phone.getD "",
    amount := req.amount.getD 0, fee := computeFee (req.amount.getD 0),
    status := "pending_payment", description := req.description,
    created_at := created_at }

/-- The commission document handed to `Commission.create` by the
create-transaction route (status and destination take the schema
defaults). -/
def builtCommission (txID : String) (fee : ℚ) : Commission :=
  { transaction_id := txID, amount := fee, status := "pending",
    destination_number := "+233240254680" }

/-- `POST /api/transactions`: check `!buyer_id || !seller_phone || !amount`,
look the buyer up for the denormalized phone snapshot (`"Unknown"` when the
lookup finds nothing), compute the 1% fee, then `Transaction.create` followed
by `Commission.create`.  `txID` is the generated identifier, `docId` /
`created_at` the fresh `_id` and timestamp, and `txCreateFails` /
`commCreateFails` say whether each `create` call throws (caught as the 500
response). -/
def createTransaction (req : CreateTxRequest) (txID : String)
    (docId created_at : Nat) (txCreateFails commCreateFails : Bool)
    (s : Store) : CreateTxResult × Store :=
  if !(truthyStr req.buyer_id && truthyStr req.seller_phone && truthyNum req.amount) then
    (.validationError, s)
  else if txCreateFails then (.storageError, s)
  else
    let t := builtTx req txID docId created_at s
    let s1 : Store := { s with transactions := s.transactions ++ [t] }
    if commCreateFails then (.storageError, s1)
    else
      (.created t,
        { s1 with commissions := s1.commissions ++ [builtCommission txID t.fee] })

/-- `GET /api/transactions/:userId`: all of the buyer's transactions
(the newest-first sort is ordering only and is left out of the model). -/
def listUserTransactions (userId : String) (s : Store) : List Transaction :=
  s.transactions.filter (fun t => t.buyer_id == userId)

/-- `GET /api/admin/data`: the three collections, unfiltered. -/
def listAllAdminData (s : Store) :
    List Transaction × List Payment × List Commission :=
  (s.transactions, s.payments, s.commissions)

/-- `POST /api/payments/confirm`: `Payment.create` with `verified: false`;
the response is always `{success:true}`. -/
def submitPayment (transaction_id momo_reference : String)
    (docId created_at : Nat) (s : Store) : Bool × Store :=
  (true, { s with payments :=
      s.payments ++ [⟨docId, transaction_id, momo_reference, false, created_at⟩] })

/-- `PUT /api/transactions/:id/confirm-delivery`:
`Transaction.findByIdAndUpdate(id, { status: 'delivered' })`. -/
def confirmDelivery (id : Nat) (s : Store) : Bool × Store :=
  let txs := updateFirst (fun t => t.id == id)
    (fun t => { t with status := "delivered" }) s.transactions
  (true, { s with transactions := txs })

/-- `PUT /api/transactions/:id/dispute`:
`Transaction.findByIdAndUpdate(id, { status: 'disputed' })`. -/
def openDispute (id : Nat) (s : Store) : Bool × Store :=
  let txs := updateFirst (fun t => t.id == id)
    (fun t => { t with status := "disputed" }) s.transactions
  (true, { s with transactions := txs })

/-- `PUT /api/admin/verify`: set the first matching payment's `verified` flag
and move the matching transaction to `funded`, as two independent writes. -/
def adminVerifyPayment (transaction_id : String) (s : Store) : Bool × Store :=
  let pays := updateFirst (fun p => p.transaction_id == transaction_id)
    (fun p => { p with verified := true }) s.payments
  let txs := updateFirst (fun t => t.transaction_id == transaction_id)
    (fun t => { t with status := "funded" }) s.transactions
  (true, { s with payments := pays, transactions := txs })

/-- `PUT /api/admin/release`: move the matching transaction to `completed`
and the matching commission to `paid`, as two independent writes. -/
def adminReleaseFunds (transaction_id : String) (s : Store) : Bool × Store :=
  let txs := updateFirst (fun t => t.transaction_id == transaction_id)
    (fun t => { t with status := "completed" }) s.transactions
  let comms := updateFirst (fun c => c.transaction_id == transaction_id)
    (fun c => { c with status := "paid" }) s.commissions
  (true, { s with transactions := txs, commissions := comms })

/-- `PUT /api/admin/refund`: move the matching transaction to `cancelled`;
the commission is left untouched. -/
def adminRefund (transaction_id : String) (s : Store) : Bool × Store :=
  let txs := updateFirst (fun t => t.transaction_id == transaction_id)
    (fun t => { t with status := "cancelled" }) s.transactions
  (true, { s with transactions := txs })

/-- `DELETE /api/admin/delete-payment/:txId`: `findOneAndDelete` on each of
the payment, transaction and commission collections in turn. -/
def adminDeletePayment (txId : String) (s : Store) : Bool × Store :=
  let pays := deleteFirst (fun p => p.transaction_id == txId) s.payments
  let txs := deleteFirst (fun t => t.transaction_id == txId) s.transactions
  let comms := deleteFirst (fun c => c.transaction_id == txId) s.commissions
  (true, { s with payments := pays, transactions := txs, commissions := comms })

/-- One mutating request, with all the data the route reads from the outside
world (request body, fresh ids, timestamps, fault flags). -/
inductive Op where
  | register (phone_number password hashed id : String) (created_at : Nat)
  | createTx (req : CreateTxRequest) (txID : String) (docId created_at : Nat)
      (txCreateFails commCreateFails : Bool)
  | submitPayment (transaction_id momo_reference : String) (docId created_at : Nat)
  | confirmDelivery (id : Nat)
  | openDispute (id : Nat)
  | adminVerify (transaction_id : String)
  | adminRelease (transaction_id : String)
  | adminRefund (transaction_id : String)
  | adminDelete (txId : String)
deriving DecidableEq, Repr

/-- The store after serving one request. -/
def applyOp (op : Op) (s : Store) : Store :=
  match op with
  | .register p pw h i ca => (register p pw h i ca s).2
  | .createTx req txID d ca f1 f2 => (createTransaction req txID d ca f1 f2 s).2
  | .submitPayment tid r d ca => (submitPayment tid r d ca s).2
  | .confirmDelivery i => (confirmDelivery i s).2
  | .openDispute i => (openDispute i s).2
  | .adminVerify tid => (adminVerifyPayment tid s).2
  | .adminRelease tid => (adminReleaseFunds tid s).2
  | .adminRefund tid => (adminRefund tid s).2
  | .adminDelete tid => (adminDeletePayment tid s).2

/-- The store after serving a sequence of requests, in order. -/
def run (ops : List Op) (s : Store) : Store :=
  ops.foldl (fun st op => applyOp op st) s

/-- Whether a request is the admin payment-verification route. -/
def isVerifyOp : Op → Bool
  | .adminVerify _ => true
  | _ => false

/-- All fields of a transaction other than `status` agree. -/
def sameCore (t u : Transaction) : Prop :=
  t.id = u.id ∧ t.transaction_id = u.transaction_id ∧ t.buyer_id = u.buyer_id ∧
  t.buyer_phone = u.buyer_phone ∧ t.seller_phone = u.seller_phone ∧
  t.amount = u.amount ∧ t.fee = u.fee ∧ t.description = u.description ∧
  t.created_at = u.created_at

theorem sameCore_refl (t : Transaction) : sameCore t t := by
  unfold sameCore; exact ⟨rfl, rfl, rfl, rfl, rfl, rfl, rfl, rfl, rfl⟩

/-! ### Lemmas about `updateFirst` and `deleteFirst` -/

theorem updateFirst_of_none (p : α → Bool) (f : α → α) (l : List α)
    (h : ∀ x ∈ l, p x = false) : updateFirst p f l = l := by
  induction l with
  | nil => rfl
  | cons a l ih =>
    simp only [updateFirst, h a (List.mem_cons_self a l)]
    simp only [Bool.false_eq_true, if_false, List.cons.injEq, true_and]
    exact ih fun x hx => h x (List.mem_cons_of_mem a hx)

theorem deleteFirst_of_none (p : α → Bool) (l : List α)
    (h : ∀ x ∈ l, p x = false) : deleteFirst p l = l := by
  induction l with
  | nil => rfl
  | cons a l ih =>
    simp only [deleteFirst, h a (List.mem_cons_self a l)]
    simp only [Bool.false_eq_true, if_false, List.cons.injEq, true_and]
    exact ih fun x hx => h x (List.mem_cons_of_mem a hx)

theorem filter_updateFirst_singleton (p : α → Bool) (f : α → α) (l : List α)
    (m : α) (hf : l.filter p = [m]) (hpf : p (f m) = true) :
    (updateFirst p f l).filter p = [f m] := by
  induction l with
  | nil => simp at hf
  | cons a l ih =>
    by_cases hpa : p a = true
    · have hfil : List.filter p (a :: l) = a :: List.filter p l := by
        simp [List.filter, hpa]
      rw [hfil] at hf
      have ham : a = m := (List.cons.injEq _ _ _ _).mp hf |>.1
      have hnil : List.filter p l = [] := (List.cons.injEq _ _ _ _).mp hf |>.2
      simp only [updateFirst, hpa, if_true]
      subst ham
      simp [List.filter, hpf, hnil]
    · have hpa2 : p a = false := by revert hpa; cases p a <;> simp
      have hfil : List.filter p (a :: l) = List.filter p l := by
        simp [List.filter, hpa2]
      rw [hfil] at hf
      simp only [updateFirst, hpa2]
      simp only [Bool.false_eq_true, if_false]
      simpa [List.filter, hpa2] using ih hf

theorem filter_deleteFirst_singleton (p : α → Bool) (l : List α)
    (m : α) (hf : l.filter p = [m]) :
    (deleteFirst p l).filter p = [] := by
  induction l with
  | nil => simp at hf
  | cons a l ih =>
    by_cases hpa : p a = true
    · have hfil : List.filter p (a :: l) = a :: List.filter p l := by
        simp [List.filter, hpa]
      rw [hfil] at hf
      have hnil : List.filter p l = [] := (List.cons.injEq _ _ _ _).mp hf |>.2
      simp only [deleteFirst, hpa, if_true]
      exact hnil
    · have hpa2 : p a = false := by revert hpa; cases p a <;> simp
      have hfil : List.filter p (a :: l) = List.filter p l := by
        simp [List.filter, hpa2]
      rw [hfil] at hf
      simp only [deleteFirst, hpa2]
      simp only [Bool.false_eq_true, if_false]
      simpa [List.filter, hpa2] using ih hf

theorem updateFirst_idem (p : α → Bool) (f : α → α) (l : List α)
    (hp : ∀ a, p (f a) = p a) (hff : ∀ a, f (f a) = f a) :
    updateFirst p f (updateFirst p f l) = updateFirst p f l := by
  induction l with
  | nil => rfl
  | cons a l ih =>
    by_cases hpa : p a = true
    · simp only [updateFirst, hpa, if_true, hp a, hff a]
    · have hpa2 : p a = false := by revert hpa; cases p a <;> simp
      simp only [updateFirst, hpa2, Bool.false_eq_true, if_false,
        List.cons.injEq, true_and]
      exact ih

theorem forall₂_self_of_refl (R : α → α → Prop) (hrefl : ∀ a, R a a)
    (l : List α) : List.Forall₂ R l l := by
  induction l with
  | nil => exact List.Forall₂.nil
  | cons a l ih => exact List.Forall₂.cons (hrefl a) ih

theorem forall₂_updateFirst (R : α → α → Prop) (p : α → Bool) (f : α → α)
    (l : List α) (hrefl : ∀ a, R a a) (hstep : ∀ a, R a (f a)) :
    List.Forall₂ R l (updateFirst p f l) := by
  induction l with
  | nil => exact List.Forall₂.nil
  | cons a l ih =>
    by_cases hpa : p a = true
    · simp only [updateFirst, hpa, if_true]
      exact List.Forall₂.cons (hstep a) (forall₂_self_of_refl R hrefl l)
    · have hpa2 : p a = false := by revert hpa; cases p a <;> simp
      simp only [updateFirst, hpa2, Bool.false_eq_true, if_false]
      exact List.Forall₂.cons (hrefl a) ih

theorem all_deleteFirst (p q : α → Bool) (l : List α)
    (h : l.all q = true) : (deleteFirst p l).all q = true := by
  induction l with
  | nil => rfl
  | cons a l ih =>
    simp only [List.all_cons, Bool.and_eq_true] at h
    by_cases hpa : p a = true
    · simp only [deleteFirst, hpa, if_true]; exact h.2
    · have hpa2 : p a = false := by revert hpa; cases p a <;> simp
      simp only [deleteFirst, hpa2, Bool.false_eq_true, if_false,
        List.all_cons, Bool.and_eq_true]
      exact ⟨h.1, ih h.2⟩

theorem countP_deleteFirst (p : α → Bool) (l : List α) :
    (deleteFirst p l).countP p = l.countP p - 1 := by
  induction l with
  | nil => rfl
  | cons a l ih =>
    by_cases hpa : p a = true
    · simp only [deleteFirst, hpa, if_true, List.countP_cons, hpa, if_true,
        Nat.add_sub_cancel]
    · have hpa2 : p a = false := by revert hpa; cases p a <;> simp
      simp only [deleteFirst, hpa2, Bool.false_eq_true, if_false,
        List.countP_cons, hpa2]
      simpa using ih

/-- The create-transaction route never touches the payments collection,
whatever the request and the fault flags. -/
theorem createTransaction_payments (req : CreateTxRequest) (txID : String)
    (docId created_at : Nat) (f1 f2 : Bool) (s : Store) :
    (createTransaction req txID docId created_at f1 f2 s).2.payments =
      s.payments := by
  unfold createTransaction
  by_cases hv : (!(truthyStr req.buyer_id && truthyStr req.seller_phone &&
      truthyNum req.amount)) = true
  · simp [hv]
  · simp only [Bool.not_eq_true] at hv
    cases f1 <;> cases f2 <;> simp [hv]

/-! ### The rounding is a genuine 2-decimal rounding -/

theorem toFixed2_isCent (q : ℚ) : ∃ n : ℤ, toFixed2 q = (n : ℚ) / 100 :=
  ⟨⌊q * 100 + 1 / 2⌋, rfl⟩

theorem toFixed2_near (q : ℚ) : |toFixed2 q - q| ≤ 1 / 200 := by
  unfold toFixed2
  have h1 : (⌊q * 100 + 1 / 2⌋ : ℚ) ≤ q * 100 + 1 / 2 := Int.floor_le _
  have h2 : q * 100 + 1 / 2 < (⌊q * 100 + 1 / 2⌋ : ℚ) + 1 := Int.lt_floor_add_one _
  rw [abs_le]
  constructor <;> [linarith; linarith]

/-! ### Concrete fixtures used by witnesses and counterexamples -/

/-- A sample transaction in its initial state. -/
def tx1 : Transaction :=
  ⟨1, "KS1-123456", "buyer1", "0551234567", "0244000000", 100, 1,
    "pending_payment", "widget", 0⟩

/-- A first payment submission for `tx1`. -/
def pay1 : Payment := ⟨1, "KS1-123456", "MOMO-A", false, 0⟩

/-- A second payment submission for the same transaction. -/
def pay2 : Payment := ⟨2, "KS1-123456", "MOMO-B", false, 0⟩

/-- The commission paired with `tx1`. -/
def comm1 : Commission := ⟨"KS1-123456", 1, "pending", "+233240254680"⟩

/-- A store holding `tx1`, its commission, and two payment submissions. -/
def storeTwoPayments : Store := ⟨[], [tx1], [pay1, pay2], [comm1]⟩

/-- A store holding `tx1`, its commission, and a single payment submission. -/
def storeOnePayment : Store := ⟨[], [tx1], [pay1], [comm1]⟩

/-- A registered user fixture. -/
def user1 : User := ⟨"buyer1", "0551234567", "hash-of-pw1", 0⟩

/-- A store holding just `user1`. -/
def storeOneUser : Store := ⟨[user1], [], [], []⟩

/-! ### C1: admin delete -/

/-- Claim C1 as stated is false: with two Payment rows for `KS1-123456`,
`AdminDeletePayment` (`findOneAndDelete`, not `deleteMany`) removes only the
first one; `pay2` matches the deleted transaction id and still appears in the
payments component of the admin listing afterwards. -/
theorem C1_counterexample :
    pay2.transaction_id = "KS1-123456" ∧
    pay2 ∈ storeTwoPayments.payments ∧
    pay2 ∈ (listAllAdminData (adminDeletePayment "KS1-123456" storeTwoPayments).2).2.1 := by
  decide

/-- Claim C1, amended: `AdminDeletePayment(txId)` responds success, removes
the (unique) Transaction row and Commission row matching `txId`, and removes
only the first matching Payment row — the count of matching payments drops by
exactly one, so extra Payment rows for `txId` survive. -/
theorem C1_delete_semantics (txId : String) (s : Store)
    (t : Transaction) (c : Commission)
    (ht : s.transactions.filter (fun x => x.transaction_id == txId) = [t])
    (hc : s.commissions.filter (fun x => x.transaction_id == txId) = [c]) :
    (adminDeletePayment txId s).1 = true ∧
    (adminDeletePayment txId s).2.transactions.filter
      (fun x => x.transaction_id == txId) = [] ∧
    (adminDeletePayment txId s).2.commissions.filter
      (fun x => x.transaction_id == txId) = [] ∧
    (adminDeletePayment txId s).2.payments.countP
        (fun x => x.transaction_id == txId) =
      s.payments.countP (fun x => x.transaction_id == txId) - 1 := by
  refine ⟨rfl, ?_, ?_, ?_⟩
  · exact filter_deleteFirst_singleton _ _ t ht
  · exact filter_deleteFirst_singleton _ _ c hc
  · exact countP_deleteFirst _ _

/-- Witness for the amended C1 at a concrete store with a single payment:
the transaction, commission and payment rows for `KS1-123456` are all gone. -/
theorem C1_delete_semantics_witness :
    (adminDeletePayment "KS1-123456" storeOnePayment).1 = true ∧
    (adminDeletePayment "KS1-123456" storeOnePayment).2.transactions.filter
      (fun x => x.transaction_id == "KS1-123456") = [] ∧
    (adminDeletePayment "KS1-123456" storeOnePayment).2.commissions.filter
      (fun x => x.transaction_id == "KS1-123456") = [] ∧
    (adminDeletePayment "KS1-123456" storeOnePayment).2.payments.countP
        (fun x => x.transaction_id == "KS1-123456") =
      storeOnePayment.payments.countP
        (fun x => x.transaction_id == "KS1-123456") - 1 :=
  C1_delete_semantics "KS1-123456" storeOnePayment tx1 comm1 (by decide) (by decide)

/-! ### C2: login with an unregistered phone number -/

/-- Claim C2 as stated is false: the store is empty, so `"admin"` is not a
registered phone number, yet `login "admin" "admin123"` answers the hardcoded
success response instead of the 401 failure. -/
theorem C2_counterexample :
    emptyStore.users = [] ∧
    login "admin" "admin123" (fun a b => a == b) emptyStore = .adminBypass ∧
    login "admin" "admin123" (fun a b => a == b) emptyStore ≠ .invalidCredentials := by
  decide

/-- Claim C2, amended: for every login request whose phone number is not a
registered user's phone number and which is not the hardcoded
`admin`/`admin123` pair, login fails with the 401 invalid-credentials
response (for any submitted password and any password-check oracle). -/
theorem C2_login_unregistered_fails (phone password : String)
    (check : String → String → Bool) (s : Store)
    (hreg : ∀ u ∈ s.users, u.phone_number ≠ phone)
    (hbyp : ¬(phone = "admin" ∧ password = "admin123")) :
    login phone password check s = .invalidCredentials := by
  unfold login
  have hb : (phone == "admin" && password == "admin123") = false := by
    by_cases hp : phone = "admin"
    · have hpw : password ≠ "admin123" := fun hw => hbyp ⟨hp, hw⟩
      simp [beq_iff_eq, hpw]
    · simp [beq_iff_eq, hp]
  have hfind : s.users.find? (fun u => u.phone_number == phone) = none := by
    apply List.find?_eq_none.mpr
    intro u hu
    simp [beq_iff_eq, hreg u hu]
  simp [hb, hfind]

/-- Witness for the amended C2: a store with one registered user, a login
attempt for a different, unregistered number. -/
theorem C2_login_unregistered_fails_witness :
    login "0200000000" "pw1" (fun a b => a == b) storeOneUser =
      .invalidCredentials :=
  C2_login_unregistered_fails "0200000000" "pw1" (fun a b => a == b)
    storeOneUser (by decide) (by decide)

/-! ### C3, C4: create-transaction validation and the dual write -/

/-- When the truthiness check fails, the route answers 400 and leaves the
store alone, whatever the fault flags. -/
theorem createTransaction_invalid (req : CreateTxRequest) (txID : String)
    (docId created_at : Nat) (f1 f2 : Bool) (s : Store)
    (hv : (truthyStr req.buyer_id && truthyStr req.seller_phone &&
      truthyNum req.amount) = false) :
    createTransaction req txID docId created_at f1 f2 s = (.validationError, s) := by
  unfold createTransaction
  simp [hv]

/-- When the truthiness check passes, the route never answers 400. -/
theorem createTransaction_valid_not400 (req : CreateTxRequest) (txID : String)
    (docId created_at : Nat) (f1 f2 : Bool) (s : Store)
    (hv : (truthyStr req.buyer_id && truthyStr req.seller_phone &&
      truthyNum req.amount) = true) :
    (createTransaction req txID docId created_at f1 f2 s).1 ≠ .validationError := by
  unfold createTransaction
  cases f1 <;> cases f2 <;> simp [hv]

/-- A request with the negative amount `-5`: every field is JS-truthy, so the
guard `if (!buyer_id || !seller_phone || !amount)` lets it through. -/
def reqNeg : CreateTxRequest := ⟨some "buyer1", some "0244000000", some (-5), "gadget"⟩

/-- A well-formed request with amount 1000. -/
def reqOK : CreateTxRequest := ⟨some "buyer1", some "0244000000", some 1000, "widget"⟩

/-- A request whose amount field is absent. -/
def reqNoAmount : CreateTxRequest := ⟨some "buyer1", some "0244000000", none, "widget"⟩

/-- Claim C3 as stated is false: the request with amount `-5` (not strictly
positive) is not rejected — the route creates a Transaction and a Commission
for it, because `!amount` only catches a missing or zero amount. -/
theorem C3_counterexample :
    (createTransaction reqNeg "KS1-111111" 7 0 false false emptyStore).1 ≠
      CreateTxResult.validationError ∧
    (createTransaction reqNeg "KS1-111111" 7 0 false false emptyStore).2.transactions.length = 1 ∧
    (createTransaction reqNeg "KS1-111111" 7 0 false false emptyStore).2.commissions.length = 1 := by
  decide

/-- Claim C3, amended: the route answers the 400 ValidationError exactly when
`buyer_id` is missing or empty, `seller_phone` is missing or empty, or
`amount` is missing or zero (JS falsiness) — negative amounts pass the guard —
and whenever it answers 400 the store is unchanged. -/
theorem C3_create_validation (req : CreateTxRequest) (txID : String)
    (docId created_at : Nat) (f1 f2 : Bool) (s : Store) :
    ((createTransaction req txID docId created_at f1 f2 s).1 = .validationError ↔
      ¬(truthyStr req.buyer_id = true ∧ truthyStr req.seller_phone = true ∧
        truthyNum req.amount = true)) ∧
    ((createTransaction req txID docId created_at f1 f2 s).1 = .validationError →
      (createTransaction req txID docId created_at f1 f2 s).2 = s) := by
  by_cases hv : (truthyStr req.buyer_id && truthyStr req.seller_phone &&
      truthyNum req.amount) = true
  · have hne := createTransaction_valid_not400 req txID docId created_at f1 f2 s hv
    have hconj : truthyStr req.buyer_id = true ∧ truthyStr req.seller_phone = true ∧
        truthyNum req.amount = true := by
      simpa [Bool.and_eq_true, and_assoc] using hv
    exact ⟨⟨fun h => absurd h hne, fun hn => absurd hconj hn⟩,
      fun h => absurd h hne⟩
  · have hv2 : (truthyStr req.buyer_id && truthyStr req.seller_phone &&
        truthyNum req.amount) = false := by
      revert hv; cases (truthyStr req.buyer_id && truthyStr req.seller_phone &&
        truthyNum req.amount) <;> simp
    have heq := createTransaction_invalid req txID docId created_at f1 f2 s hv2
    rw [heq]
    refine ⟨⟨fun _ hconj => ?_, fun _ => rfl⟩, fun _ => rfl⟩
    obtain ⟨hb, hs2, ha⟩ := hconj
    rw [hb, hs2, ha] at hv2
    simp at hv2

/-- Witness for the amended C3: a request with no amount is rejected with the
400 response and creates nothing. -/
theorem C3_create_validation_witness :
    (createTransaction reqNoAmount "KS1-000001" 1 0 false false emptyStore).1 =
      .validationError ∧
    (createTransaction reqNoAmount "KS1-000001" 1 0 false false emptyStore).2 =
      emptyStore := by
  have h := C3_create_validation reqNoAmount "KS1-000001" 1 0 false false emptyStore
  have h1 := h.1.mpr (by decide)
  exact ⟨h1, h.2 h1⟩

/-- Claim C4 as stated is false: when `Commission.create` throws after
`Transaction.create` succeeded, the route reports the 500 StorageError but the
Transaction row stays behind — the store is not unchanged, and only one of the
two records exists. -/
theorem C4_counterexample :
    (createTransaction reqOK "KS1-222222" 5 0 false true emptyStore).1 =
      CreateTxResult.storageError ∧
    (createTransaction reqOK "KS1-222222" 5 0 false true emptyStore).2.transactions.length = 1 ∧
    (createTransaction reqOK "KS1-222222" 5 0 false true emptyStore).2.commissions = [] ∧
    (createTransaction reqOK "KS1-222222" 5 0 false true emptyStore).2 ≠ emptyStore := by
  decide

/-- Claim C4, amended: the two creates are sequential, not atomic.  For a
valid request: if the Transaction write fails, StorageError is reported and
the store is unchanged; if the Transaction write succeeds and the Commission
write fails, StorageError is reported but the Transaction row remains; only
when both succeed are both records created together. -/
theorem C4_create_dual_write (req : CreateTxRequest) (txID : String)
    (docId created_at : Nat) (s : Store)
    (hv : (truthyStr req.buyer_id && truthyStr req.seller_phone &&
      truthyNum req.amount) = true) :
    (∀ f2 : Bool,
      createTransaction req txID docId created_at true f2 s = (.storageError, s)) ∧
    (createTransaction req txID docId created_at false true s =
      (.storageError,
        { s with transactions :=
            s.transactions ++ [builtTx req txID docId created_at s] })) ∧
    (createTransaction req txID docId created_at false false s =
      (.created (builtTx req txID docId created_at s),
        { s with
            transactions := s.transactions ++ [builtTx req txID docId created_at s],
            commissions := s.commissions ++
              [builtCommission txID (builtTx req txID docId created_at s).fee] })) := by
  refine ⟨fun f2 => ?_, ?_, ?_⟩ <;>
    · unfold createTransaction
      simp [hv]

/-- Witness for the amended C4 at amount 1000: the commission-write fault
leaves exactly the orphaned transaction row. -/
theorem C4_create_dual_write_witness :
    (truthyStr reqOK.buyer_id && truthyStr reqOK.seller_phone &&
      truthyNum reqOK.amount) = true ∧
    createTransaction reqOK "KS1-222222" 5 0 false true emptyStore =
      (.storageError,
        { emptyStore with transactions := [builtTx reqOK "KS1-222222" 5 0 emptyStore] }) := by
  refine ⟨by decide, ?_⟩
  have h := (C4_create_dual_write reqOK "KS1-222222" 5 0 emptyStore (by decide)).2.1
  simpa using h

/-! ### C5: the 1% fee, rounded to two decimals -/

/-- Claim C5: for every valid request with positive amount, the created
transaction's fee is `amount * 0.01` rounded to two decimal places (the fee
differs from the exact 1% by at most half a cent), and the commission created
alongside carries exactly that fee as its amount. -/
theorem C5_fee_one_percent (req : CreateTxRequest) (txID : String)
    (docId created_at : Nat) (s : Store) (amount : ℚ)
    (ham : req.amount = some amount) (hpos : 0 < amount)
    (hb : truthyStr req.buyer_id = true)
    (hsp : truthyStr req.seller_phone = true) :
    (createTransaction req txID docId created_at false false s).1 =
      .created (builtTx req txID docId created_at s) ∧
    (builtTx req txID docId created_at s).fee = toFixed2 (amount * (1 / 100)) ∧
    |(builtTx req txID docId created_at s).fee - amount * (1 / 100)| ≤ 1 / 200 ∧
    (createTransaction req txID docId created_at false false s).2.commissions =
      s.commissions ++
        [builtCommission txID (builtTx req txID docId created_at s).fee] := by
  have hnum : truthyNum req.amount = true := by
    rw [ham]
    simp only [truthyNum, bne_iff_ne, ne_eq, decide_eq_true_eq]
    exact ne_of_gt hpos
  have hv : (truthyStr req.buyer_id && truthyStr req.seller_phone &&
      truthyNum req.amount) = true := by simp [hb, hsp, hnum]
  have hfee : (builtTx req txID docId created_at s).fee =
      toFixed2 (amount * (1 / 100)) := by
    simp [builtTx, computeFee, ham]
  refine ⟨?_, hfee, ?_, ?_⟩
  · unfold createTransaction
    simp [hv]
  · rw [hfee]; exact toFixed2_near _
  · unfold createTransaction
    simp [hv]

/-- Witness for C5 at the spec's own example: amount 1000 gives fee 10, and
the commission stores 10 as well. -/
theorem C5_fee_one_percent_witness :
    reqOK.amount = some 1000 ∧ (0 : ℚ) < 1000 ∧
    (createTransaction reqOK "KS1-333333" 3 0 false false emptyStore).1 =
      .created (builtTx reqOK "KS1-333333" 3 0 emptyStore) ∧
    (builtTx reqOK "KS1-333333" 3 0 emptyStore).fee = 10 ∧
    (createTransaction reqOK "KS1-333333" 3 0 false false emptyStore).2.commissions =
      [builtCommission "KS1-333333" 10] := by
  have h := C5_fee_one_percent reqOK "KS1-333333" 3 0 emptyStore 1000 rfl
    (by norm_num) (by decide) (by decide)
  have hfl : ⌊(1000 : ℚ) * (1 / 100) * 100 + 1 / 2⌋ = 1000 := by
    rw [Int.floor_eq_iff]; norm_num
  have hfee : (builtTx reqOK "KS1-333333" 3 0 emptyStore).fee = 10 := by
    show computeFee (reqOK.amount.getD 0) = 10
    simp only [reqOK, Option.getD_some, computeFee, toFixed2, hfl]
    norm_num
  refine ⟨rfl, by norm_num, h.1, hfee, ?_⟩
  have hcom := h.2.2.2
  rw [hfee] at hcom
  simpa using hcom

/-! ### C6: admin release of funds -/

/-- Claim C6: for a transaction id with its (unique) Transaction row and its
(unique) paired Commission row present, `AdminReleaseFunds` answers success,
moves that Transaction to status `completed`, and moves that Commission to
status `paid`. -/
theorem C6_release_completed_paid (txid : String) (s : Store)
    (t : Transaction) (c : Commission)
    (ht : s.transactions.filter (fun x => x.transaction_id == txid) = [t])
    (hc : s.commissions.filter (fun x => x.transaction_id == txid) = [c]) :
    (adminReleaseFunds txid s).1 = true ∧
    (adminReleaseFunds txid s).2.transactions.filter
      (fun x => x.transaction_id == txid) = [{ t with status := "completed" }] ∧
    (adminReleaseFunds txid s).2.commissions.filter
      (fun x => x.transaction_id == txid) = [{ c with status := "paid" }] := by
  have htmem : t ∈ s.transactions.filter (fun x => x.transaction_id == txid) := by
    rw [ht]; exact List.mem_singleton.mpr rfl
  have hcmem : c ∈ s.commissions.filter (fun x => x.transaction_id == txid) := by
    rw [hc]; exact List.mem_singleton.mpr rfl
  have hpt : (t.transaction_id == txid) = true := (List.mem_filter.mp htmem).2
  have hpc : (c.transaction_id == txid) = true := (List.mem_filter.mp hcmem).2
  refine ⟨rfl, ?_, ?_⟩
  · exact filter_updateFirst_singleton _ _ s.transactions t ht hpt
  · exact filter_updateFirst_singleton _ _ s.commissions c hc hpc

/-- Witness for C6: releasing `KS1-123456` on the one-payment store completes
`tx1` and marks `comm1` paid. -/
theorem C6_release_completed_paid_witness :
    (adminReleaseFunds "KS1-123456" storeOnePayment).1 = true ∧
    (adminReleaseFunds "KS1-123456" storeOnePayment).2.transactions.filter
      (fun x => x.transaction_id == "KS1-123456") =
      [{ tx1 with status := "completed" }] ∧
    (adminReleaseFunds "KS1-123456" storeOnePayment).2.commissions.filter
      (fun x => x.transaction_id == "KS1-123456") =
      [{ comm1 with status := "paid" }] :=
  C6_release_completed_paid "KS1-123456" storeOnePayment tx1 comm1
    (by decide) (by decide)

/-! ### C7: payments become verified only through admin verification -/

/-- The register route never touches the payments collection. -/
theorem register_payments (a b c d : String) (ca : Nat) (s : Store) :
    (register a b c d ca s).2.payments = s.payments := by
  unfold register
  split
  · rfl
  · split
    · rfl
    · rfl

/-- No request other than the admin verify route can turn a payment's
`verified` flag on: if every stored payment is unverified beforehand, it
stays so afterwards. -/
theorem applyOp_keeps_unverified (op : Op) (s : Store)
    (hop : isVerifyOp op = false)
    (h : s.payments.all (fun p => !p.verified) = true) :
    (applyOp op s).payments.all (fun p => !p.verified) = true := by
  cases op with
  | register a b c d ca =>
      show ((register a b c d ca s).2.payments.all (fun p => !p.verified)) = true
      rw [register_payments]; exact h
  | createTx req txID d ca f1 f2 =>
      show ((createTransaction req txID d ca f1 f2 s).2.payments.all
        (fun p => !p.verified)) = true
      rw [createTransaction_payments]; exact h
  | submitPayment tid r d ca =>
      show ((s.payments ++ [(⟨d, tid, r, false, ca⟩ : Payment)]).all
        (fun p => !p.verified)) = true
      rw [List.all_append]
      simp [h]
  | confirmDelivery i => exact h
  | openDispute i => exact h
  | adminVerify tid => simp [isVerifyOp] at hop
  | adminRelease tid => exact h
  | adminRefund tid => exact h
  | adminDelete tid =>
      exact all_deleteFirst _ _ s.payments h

/-- Claim C7: `SubmitPayment` always appends a payment with
`verified = false`, and over any request sequence containing no admin-verify
request, a store whose payments are all unverified keeps all its payments
unverified — so `verified = true` arises only from `AdminVerifyPayment`. -/
theorem C7_verified_only_by_admin :
    (∀ (tid ref : String) (d ca : Nat) (s : Store),
        (submitPayment tid ref d ca s).2.payments =
          s.payments ++ [⟨d, tid, ref, false, ca⟩]) ∧
    (∀ (ops : List Op) (s0 : Store),
        s0.payments.all (fun p => !p.verified) = true →
        ops.all (fun op => !isVerifyOp op) = true →
        (run ops s0).payments.all (fun p => !p.verified) = true) := by
  constructor
  · intro tid ref d ca s; rfl
  · intro ops
    induction ops with
    | nil => intro s0 h _; exact h
    | cons op ops ih =>
        intro s0 h hops
        simp only [List.all_cons, Bool.and_eq_true] at hops
        have hop : isVerifyOp op = false := by
          have h1 := hops.1
          revert h1; cases isVerifyOp op <;> simp
        exact ih (applyOp op s0) (applyOp_keeps_unverified op s0 hop h) hops.2

/-- A sample request sequence without any admin verification. -/
def opsNoVerify : List Op :=
  [Op.submitPayment "KS1-123456" "MOMO-A" 1 0,
   Op.adminRelease "KS1-123456",
   Op.adminDelete "KS1-999999"]

/-- Witness for C7: running a submit / release / delete sequence from the
empty store leaves every payment unverified. -/
theorem C7_verified_only_by_admin_witness :
    emptyStore.payments.all (fun p => !p.verified) = true ∧
    opsNoVerify.all (fun op => !isVerifyOp op) = true ∧
    (run opsNoVerify emptyStore).payments.all (fun p => !p.verified) = true :=
  ⟨rfl, rfl, C7_verified_only_by_admin.2 opsNoVerify emptyStore rfl rfl⟩

/-! ### C8: non-status transaction fields are frozen -/

/-- Claim C8: each of the six post-creation operations rewrites at most the
`status` field of stored transactions — the lists before and after are
pointwise `sameCore` (same id, transaction id, buyer, phones, amount, fee,
description and timestamp). -/
theorem C8_nonstatus_fields_frozen (s : Store) (tid ref : String)
    (d ca i : Nat) (txv txr txf : String) :
    List.Forall₂ sameCore s.transactions
      (submitPayment tid ref d ca s).2.transactions ∧
    List.Forall₂ sameCore s.transactions (confirmDelivery i s).2.transactions ∧
    List.Forall₂ sameCore s.transactions (openDispute i s).2.transactions ∧
    List.Forall₂ sameCore s.transactions
      (adminVerifyPayment txv s).2.transactions ∧
    List.Forall₂ sameCore s.transactions
      (adminReleaseFunds txr s).2.transactions ∧
    List.Forall₂ sameCore s.transactions (adminRefund txf s).2.transactions := by
  have hstep : ∀ (st : String) (a : Transaction), sameCore a { a with status := st } :=
    fun st a => ⟨rfl, rfl, rfl, rfl, rfl, rfl, rfl, rfl, rfl⟩
  refine ⟨?_, ?_, ?_, ?_, ?_, ?_⟩
  · exact forall₂_self_of_refl sameCore sameCore_refl s.transactions
  · exact forall₂_updateFirst sameCore _ _ s.transactions sameCore_refl (hstep _)
  · exact forall₂_updateFirst sameCore _ _ s.transactions sameCore_refl (hstep _)
  · exact forall₂_updateFirst sameCore _ _ s.transactions sameCore_refl (hstep _)
  · exact forall₂_updateFirst sameCore _ _ s.transactions sameCore_refl (hstep _)
  · exact forall₂_updateFirst sameCore _ _ s.transactions sameCore_refl (hstep _)

/-! ### C9: confirm-delivery is idempotent -/

/-- Applying the confirm-delivery write twice is the same as applying it
once: the second `findByIdAndUpdate` rewrites the same row with the same
status. -/
theorem confirmDelivery_idem (i : Nat) (s : Store) :
    (confirmDelivery i (confirmDelivery i s).2).2 = (confirmDelivery i s).2 := by
  simp only [confirmDelivery]
  congr 1
  exact updateFirst_idem _ _ s.transactions (fun a => rfl) (fun a => rfl)

/-- Claim C9: for an existing transaction (the unique row with document id
`i`), `ConfirmDelivery` answers success, a second call answers success and
leaves the store exactly as after the first, the row's status is `delivered`,
and no other collection is touched. -/
theorem C9_confirmDelivery_idempotent (i : Nat) (s : Store) (t : Transaction)
    (ht : s.transactions.filter (fun x => x.id == i) = [t]) :
    (confirmDelivery i s).1 = true ∧
    (confirmDelivery i (confirmDelivery i s).2).1 = true ∧
    (confirmDelivery i (confirmDelivery i s).2).2 = (confirmDelivery i s).2 ∧
    (confirmDelivery i s).2.transactions.filter (fun x => x.id == i) =
      [{ t with status := "delivered" }] ∧
    (confirmDelivery i s).2.payments = s.payments ∧
    (confirmDelivery i s).2.commissions = s.commissions ∧
    (confirmDelivery i s).2.users = s.users := by
  have htmem : t ∈ s.transactions.filter (fun x => x.id == i) := by
    rw [ht]; exact List.mem_singleton.mpr rfl
  have hpt : (t.id == i) = true := (List.mem_filter.mp htmem).2
  refine ⟨rfl, rfl, confirmDelivery_idem i s, ?_, rfl, rfl, rfl⟩
  exact filter_updateFirst_singleton _ _ s.transactions t ht hpt

/-- Witness for C9 on the concrete store: confirming delivery of document 1
twice is the same as once and marks `tx1` delivered. -/
theorem C9_confirmDelivery_idempotent_witness :
    (confirmDelivery 1 storeOnePayment).1 = true ∧
    (confirmDelivery 1 (confirmDelivery 1 storeOnePayment).2).1 = true ∧
    (confirmDelivery 1 (confirmDelivery 1 storeOnePayment).2).2 =
      (confirmDelivery 1 storeOnePayment).2 ∧
    (confirmDelivery 1 storeOnePayment).2.transactions.filter
      (fun x => x.id == 1) = [{ tx1 with status := "delivered" }] ∧
    (confirmDelivery 1 storeOnePayment).2.payments = storeOnePayment.payments ∧
    (confirmDelivery 1 storeOnePayment).2.commissions =
      storeOnePayment.commissions ∧
    (confirmDelivery 1 storeOnePayment).2.users = storeOnePayment.users :=
  C9_confirmDelivery_idempotent 1 storeOnePayment tx1 (by decide)

/-! ### C10: admin mutations on an unknown id are silent no-ops -/

/-- Claim C10: when no Transaction, Payment or Commission row matches the
given transaction id, each of the four admin mutations still answers
`{success:true}` and returns the store untouched. -/
theorem C10_admin_noop_unknown_id (txid : String) (s : Store)
    (ht : ∀ t ∈ s.transactions, t.transaction_id ≠ txid)
    (hp : ∀ p ∈ s.payments, p.transaction_id ≠ txid)
    (hc : ∀ c ∈ s.commissions, c.transaction_id ≠ txid) :
    adminVerifyPayment txid s = (true, s) ∧
    adminReleaseFunds txid s = (true, s) ∧
    adminRefund txid s = (true, s) ∧
    adminDeletePayment txid s = (true, s) := by
  have htb : ∀ t ∈ s.transactions,
      (fun x : Transaction => x.transaction_id == txid) t = false := by
    intro t htm; simp [beq_iff_eq, ht t htm]
  have hpb : ∀ p ∈ s.payments,
      (fun x : Payment => x.transaction_id == txid) p = false := by
    intro p hpm; simp [beq_iff_eq, hp p hpm]
  have hcb : ∀ c ∈ s.commissions,
      (fun x : Commission => x.transaction_id == txid) c = false := by
    intro c hcm; simp [beq_iff_eq, hc c hcm]
  refine ⟨?_, ?_, ?_, ?_⟩
  · show (true, ({ s with
        payments := updateFirst _ (fun p => { p with verified := true }) s.payments,
        transactions := updateFirst _ (fun t => { t with status := "funded" })
          s.transactions } : Store)) = (true, s)
    rw [updateFirst_of_none _ _ s.payments hpb,
      updateFirst_of_none _ _ s.transactions htb]
  · show (true, ({ s with
        transactions := updateFirst _ (fun t => { t with status := "completed" })
          s.transactions,
        commissions := updateFirst _ (fun c => { c with status := "paid" })
          s.commissions } : Store)) = (true, s)
    rw [updateFirst_of_none _ _ s.transactions htb,
      updateFirst_of_none _ _ s.commissions hcb]
  · show (true, ({ s with
        transactions := updateFirst _ (fun t => { t with status := "cancelled" })
          s.transactions } : Store)) = (true, s)
    rw [updateFirst_of_none _ _ s.transactions htb]
  · show (true, ({ s with
        payments := deleteFirst _ s.payments,
        transactions := deleteFirst _ s.transactions,
        commissions := deleteFirst _ s.commissions } : Store)) = (true, s)
    rw [deleteFirst_of_none _ s.payments hpb,
      deleteFirst_of_none _ s.transactions htb,
      deleteFirst_of_none _ s.commissions hcb]

/-- Witness for C10: the id `KS1-777777` matches nothing in the populated
store, and all four admin mutations answer success and change nothing. -/
theorem C10_admin_noop_unknown_id_witness :
    adminVerifyPayment "KS1-777777" storeTwoPayments = (true, storeTwoPayments) ∧
    adminReleaseFunds "KS1-777777" storeTwoPayments = (true, storeTwoPayments) ∧
    adminRefund "KS1-777777" storeTwoPayments = (true, storeTwoPayments) ∧
    adminDeletePayment "KS1-777777" storeTwoPayments = (true, storeTwoPayments) :=
  C10_admin_noop_unknown_id "KS1-777777" storeTwoPayments
    (by decide) (by decide) (by decide)

end KS1
